import Mathlib

/-!
Shallow embedding of `pytest_twisted.py` (pytest-twisted plugin).

The plugin bridges a synchronous test harness (pytest) with the Twisted
event loop.  The pieces the claims are about are modelled as pure Lean
functions over explicit state:

* Python exceptions become `TErr` records carrying the exception type name
  and message, so "same type and message" is literal equality.
* A Twisted `Deferred` that has resolved is `TOutcome α` (value or failure);
  a deferred that never resolves within the run is `none` in
  `Option (TOutcome α)`, and a blocking call on it returns `none` ("hangs").
* Greenlets are identified by `Nat` ids; the reentrancy check in
  `blockon_default` compares the current greenlet with the twisted greenlet.
* Mutable module state (`_tracking.async_yield_fixture_cache`,
  `_tracking.to_be_torn_down`) is threaded explicitly as a `Tracking` record;
  the Python dict is an association list with replace-on-insert semantics.
* Virtual-clock time (twisted's `task.Clock`) is modelled with `ℚ`.
-/

namespace PytestTwisted

/-- A Python exception, identified by its type name and message
(the data relevant to "re-raised as the same error"). -/
structure TErr where
  ty : String
  msg : String
deriving DecidableEq, Repr

/-- The resolution of a Twisted `Deferred`: a success value or a
`failure.Failure` wrapping an exception. -/
inductive TOutcome (α : Type) where
  | value (v : α)
  | failure (e : TErr)
deriving DecidableEq, Repr

/-- View a Python-level computation result as a deferred resolution:
a normal return resolves the deferred, a raised exception becomes a failure. -/
def exceptToOutcome {α : Type} : Except TErr α → TOutcome α
  | .ok v => .value v
  | .error e => .failure e

/-- What a synchronous caller sees after blocking on a resolved deferred:
the value is returned, a failure is re-raised (`result[0].raiseException()`). -/
def outcomeToExcept {α : Type} : TOutcome α → Except TErr α
  | .value v => .ok v
  | .failure e => .error e

/-- The `AssertionError` of `blockon_default`, line 85-87:
`assert current is not _instances.gr_twisted, "blockon cannot be called from the twisted greenlet"`. -/
def blockonAssertionError : TErr :=
  ⟨"AssertionError", "blockon cannot be called from the twisted greenlet"⟩

/-- The greenlet context of a call into `blockon_default`:
`greenlet.getcurrent()` and `_instances.gr_twisted` (which is `None`
before `init_twisted_greenlet` created it). -/
structure Greenlets where
  current : Nat
  grTwisted : Option Nat
deriving DecidableEq, Repr

/-- `blockon_default(d)` (lines 83-103): assert the caller is not the twisted
greenlet; register a callback recording the outcome; if the deferred has not
fired yet, switch into the twisted greenlet until it does; finally return the
recorded value or re-raise the recorded failure.

`d = none` models a deferred that never fires within the run: the caller
switches into the reactor and is never resumed, so the call hangs (`none`).
A deferred that does fire (`some outcome`) hands its outcome back. -/
def blockon_default {α : Type} (g : Greenlets) (d : Option (TOutcome α)) :
    Option (Except TErr α) :=
  if some g.current = g.grTwisted then
    some (.error blockonAssertionError)
  else
    match d with
    | none => none
    | some out => some (outcomeToExcept out)

/-- `RuntimeError("twisted reactor has stopped")` (line 296). -/
def reactorStoppedError : TErr := ⟨"RuntimeError", "twisted reactor has stopped"⟩

/-- `RuntimeError("twisted reactor is not running")` (line 306). -/
def reactorNotRunningError : TErr := ⟨"RuntimeError", "twisted reactor is not running"⟩

/-- The singleton `_instances` / reactor-mode state observed by
`_run_inline_callbacks`: the optional twisted greenlet (with whether it is
dead) and whether the external reactor is running. -/
structure Instances where
  grTwisted : Option Nat
  grDead : Bool
  reactorRunning : Bool
deriving DecidableEq, Repr

/-- `_run_inline_callbacks(f, *args)` (lines 292-307), with the eventual
resolution of `f`'s deferred given as `res` (`none` = never resolves).
In-process mode (`gr_twisted` exists): refuse if the greenlet is dead,
otherwise schedule `f` in the reactor and `blockon_default` the chained
deferred.  External mode: refuse if the reactor is not running, otherwise
`blockingCallFromThread` returns the result or re-raises the failure. -/
def _run_inline_callbacks {α : Type} (inst : Instances) (current : Nat)
    (res : Option (TOutcome α)) : Option (Except TErr α) :=
  match inst.grTwisted with
  | some gr =>
    if inst.grDead then some (.error reactorStoppedError)
    else blockon_default ⟨current, some gr⟩ res
  | none =>
    if inst.reactorRunning then res.map outcomeToExcept
    else some (.error reactorNotRunningError)

/-! ### Mark registry and async-fixture decorator builders -/

/-- Python `repr` of a string: the text wrapped in single quotes (`\x27`). -/
def pyRepr (s : String) : String := "\x27" ++ s ++ "\x27"

/-- Python `repr` of an optional string (`repr(mark)` where the mark may be
`None`). -/
def pyReprOpt : Option String → String
  | none => "None"
  | some s => pyRepr s

/-- `AsyncFixtureUnsupportedScopeError.from_scope(scope)` (lines 35-40). -/
def unsupportedScopeError (scope : String) : TErr :=
  ⟨"AsyncFixtureUnsupportedScopeError",
    "Unsupported scope " ++ pyRepr scope ++ " used for async fixture"⟩

/-- `UnrecognizedCoroutineMarkError.from_mark(mark)` (lines 19-24). -/
def unrecognizedMarkError (mark : Option String) : TErr :=
  ⟨"UnrecognizedCoroutineMarkError",
    "Coroutine wrapper mark not recognized: " ++ pyReprOpt mark⟩

/-- The scope `_marked_async_fixture`'s inner `fixture` computes (lines
171-174): the first positional argument if one is given, otherwise the
`scope` keyword argument, defaulting to `"function"`. -/
def fixtureRequestedScope (posScope kwScope : Option String) : String :=
  match posScope with
  | some s => s
  | none => kwScope.getD "function"

/-- The second step of an async yield fixture generator, i.e. the resolution
of `defer.ensureDeferred(coroutine.__anext__())` at teardown time: the
generator either raised `StopAsyncIteration` (it is exhausted, the expected
outcome), yielded a further value, or raised some other exception. -/
inductive GenStep (α : Type) where
  | stop
  | yielded (v : α)
  | raised (e : TErr)
deriving DecidableEq, Repr

/-- A pytest `FixtureDef` for a (possibly marked) fixture function, together
with the behaviour of its asynchronous body, which the embedding takes as
given data:

* `mark` — `_get_mark(fixturedef.func)`;
* `bodyOutcome` — resolution of `defer.ensureDeferred(fixture_function(**kwargs))`
  (the `async_fixture` / `auto_clock` branches);
* `firstStep` — resolution of the first `coroutine.__anext__()` of an async
  generator fixture (value yielded, or exception raised);
* `tearStep` — what the generator does when advanced again at teardown;
* `genId` — identity of the coroutine object created by calling the fixture
  function;
* `pytestClock` — the `_pytest_clock` attribute set by the `auto_clock` branch;
* `cached_result` — pytest's cached result triple
  `(arg_value, param_index, None)`. -/
structure FixtureDefM (α : Type) where
  mark : Option String := none
  bodyOutcome : TOutcome α := .failure ⟨"TypeError", "not called"⟩
  firstStep : TOutcome α := .failure ⟨"TypeError", "not called"⟩
  tearStep : GenStep α := .stop
  genId : Nat := 0
  pytestClock : Bool := false
  cached_result : Option (α × Nat × Option TErr) := none
deriving DecidableEq, Repr

/-- The decorator returned by `_marked_async_fixture(mark)` (lines 168-198),
applied to positional/keyword scope arguments and a fixture function: reject
any scope outside `['function', 'module']` at definition time, otherwise set
the mark on the function and register it as a pytest fixture. -/
def _marked_async_fixture {α : Type} (mark : String)
    (posScope kwScope : Option String) (f : FixtureDefM α) :
    Except TErr (FixtureDefM α) :=
  let scope := fixtureRequestedScope posScope kwScope
  if scope = "function" ∨ scope = "module" then
    .ok { f with mark := some mark }
  else
    .error (unsupportedScopeError scope)

/-! ### Fixture orchestrator state (`_tracking`) -/

/-- An entry for an in-flight async generator fixture: the identity of its
coroutine object together with what the generator will do when advanced
again at teardown. -/
structure TearEntry (α : Type) where
  genId : Nat
  tearStep : GenStep α
deriving DecidableEq, Repr

/-- Replace-or-add insertion into a Python dict modelled as an association
list (`d[k] = v`). -/
def dictSet {β : Type} (d : List (Nat × β)) (k : Nat) (v : β) : List (Nat × β) :=
  (d.filter (fun p => p.1 ≠ k)) ++ [(k, v)]

/-- Dict lookup `d.get(k)`. -/
def dictGet {β : Type} (d : List (Nat × β)) (k : Nat) : Option β :=
  (d.find? (fun p => p.1 = k)).map (fun p => p.2)

/-- `d.pop(k, None)`: the removed value (if any) and the remaining dict. -/
def dictPop {β : Type} (d : List (Nat × β)) (k : Nat) :
    Option β × List (Nat × β) :=
  (dictGet d k, d.filter (fun p => p.1 ≠ k))

/-- The module-level `_tracking` state (lines 52-54):
`async_yield_fixture_cache` keyed by `request.param_index`, and the
`to_be_torn_down` queue of teardown deferreds. -/
structure Tracking (α : Type) where
  async_yield_fixture_cache : List (Nat × TearEntry α) := []
  to_be_torn_down : List (TearEntry α) := []
deriving DecidableEq, Repr

/-- `_async_pytest_fixture_setup(fixturedef, request, mark)` (lines 221-253),
dispatching on the fixture's mark.  Returns the updated tracking state
together with either the raised exception or the resolved `arg_value` and the
updated fixture definition (with `cached_result` set, and `_pytest_clock` for
the `auto_clock` branch).  The async-generator branch inserts the coroutine
into the cache *before* awaiting its first step, so the insertion survives a
failing first step, as in the source. -/
def _async_pytest_fixture_setup {α : Type} (fx : FixtureDefM α)
    (paramIndex : Nat) (tr : Tracking α) :
    Tracking α × Except TErr (α × FixtureDefM α) :=
  if fx.mark = some "async_fixture" then
    match fx.bodyOutcome with
    | .value v =>
      (tr, .ok (v, { fx with cached_result := some (v, paramIndex, none) }))
    | .failure e => (tr, .error e)
  else if fx.mark = some "async_yield_fixture" then
    let tr' := { tr with
      async_yield_fixture_cache :=
        dictSet tr.async_yield_fixture_cache paramIndex ⟨fx.genId, fx.tearStep⟩ }
    match fx.firstStep with
    | .value v =>
      (tr', .ok (v, { fx with cached_result := some (v, paramIndex, none) }))
    | .failure e => (tr', .error e)
  else if fx.mark = some "auto_clock" then
    let fx' := { fx with pytestClock := true }
    match fx.bodyOutcome with
    | .value v =>
      (tr, .ok (v, { fx' with cached_result := some (v, paramIndex, none) }))
    | .failure e => (tr, .error e)
  else (tr, .error (unrecognizedMarkError fx.mark))

/-- `pytest_fixture_setup(fixturedef, request)` (lines 207-218): decline
(`.ok none`, Python `None`) when the fixture function carries no mark at
all; otherwise run `_async_pytest_fixture_setup` inside the reactor through
`_run_inline_callbacks` and report handled (`.ok (some _)`, Python
`not None` = `True`).  The overall `Option` is `none` when the blocking call
hangs (never here, since fixture bodies are given as resolved outcomes). -/
def pytest_fixture_setup {α : Type} (inst : Instances) (current : Nat)
    (fx : FixtureDefM α) (paramIndex : Nat) (tr : Tracking α) :
    Tracking α × Option (Except TErr (Option (α × FixtureDefM α))) :=
  if fx.mark = none then (tr, some (.ok none))
  else
    match inst.grTwisted with
    | some gr =>
      if inst.grDead then (tr, some (.error reactorStoppedError))
      else
        let (tr', r) := _async_pytest_fixture_setup fx paramIndex tr
        (tr',
          (blockon_default ⟨current, some gr⟩ (some (exceptToOutcome r))).map
            (Except.map some))
    | none =>
      if inst.reactorRunning then
        let (tr', r) := _async_pytest_fixture_setup fx paramIndex tr
        (tr', some (Except.map some r))
      else (tr, some (.error reactorNotRunningError))

/-- `pytest_fixture_post_finalizer(fixturedef, request)` (lines 257-271):
pop the pending generator for this instantiation's `param_index`; if none,
no-op; otherwise advance it once more (`coroutine.__anext__()` as a
deferred) and append the handle to the `to_be_torn_down` queue. -/
def pytest_fixture_post_finalizer {α : Type} (paramIndex : Nat)
    (tr : Tracking α) : Tracking α :=
  match dictPop tr.async_yield_fixture_cache paramIndex with
  | (none, _) => tr
  | (some entry, rest) =>
    { async_yield_fixture_cache := rest,
      to_be_torn_down := tr.to_be_torn_down ++ [entry] }

/-- `AsyncGeneratorFixtureDidNotStopError.from_generator(...)` (lines 27-32);
the source passes the teardown deferred, identified here by the coroutine
id. -/
def asyncGenDidNotStopError (genId : Nat) : TErr :=
  ⟨"AsyncGeneratorFixtureDidNotStopError",
    "async fixture did not stop: <Deferred " ++ toString genId ++ ">"⟩

/-- `tear_it_down(deferred)` (lines 274-289): await the teardown step;
`StopAsyncIteration` means the generator is exhausted and teardown succeeds;
any further yielded value or any other exception raises
`AsyncGeneratorFixtureDidNotStopError`. -/
def tear_it_down {α : Type} (entry : TearEntry α) : Except TErr Unit :=
  match entry.tearStep with
  | .stop => .ok ()
  | .yielded _ => .error (asyncGenDidNotStopError entry.genId)
  | .raised _ => .error (asyncGenDidNotStopError entry.genId)

/-- The drain loop of `pytest_runtest_teardown` (lines 310-317): pop the
front of `to_be_torn_down` and run `tear_it_down` on it, until the queue is
empty or a teardown raises (the raise aborts the loop).  Returns the final
result, the entries processed in order, and the entries left in the queue. -/
def pytest_runtest_teardown {α : Type} :
    List (TearEntry α) → Except TErr Unit × List (TearEntry α) × List (TearEntry α)
  | [] => (.ok (), [], [])
  | e :: rest =>
    match tear_it_down e with
    | .ok () =>
      let (r, done, remaining) := pytest_runtest_teardown rest
      (r, e :: done, remaining)
    | .error err => (.error err, [e], rest)

/-! ### Test invoker -/

/-- Python `KeyError(name)` from `kwargs[name]`. -/
def keyError (name : String) : TErr := ⟨"KeyError", pyRepr name⟩

/-- Association-list lookup for a string-keyed Python dict. -/
def slookup {β : Type} (d : List (String × β)) (k : String) : Option β :=
  (d.find? (fun p => p.1 = k)).map (fun p => p.2)

/-- A pytest function item as seen by `_async_pytest_pyfunc_call`:

* `mark` — `_get_mark(pyfuncitem.obj)`;
* `funcargs` — `pyfuncitem.funcargs` (every resolved fixture value);
* `argnames` — `pyfuncitem._fixtureinfo.argnames` (the test's direct
  arguments);
* `fixturenames` — `pyfuncitem.fixturenames` (the full fixture closure);
* `name2fixturedefs` — `pyfuncitem._fixtureinfo.name2fixturedefs`;
* `body` — the resolution of awaiting the deferred obtained from
  `pyfuncitem.obj(**kwargs)` (for all three dispatch paths). -/
structure PyFuncItem (α : Type) where
  mark : Option String := none
  funcargs : List (String × α) := []
  argnames : List String := []
  fixturenames : List String := []
  name2fixturedefs : List (String × List (FixtureDefM α)) := []
  body : TOutcome α

/-- The `kwargs` computed at lines 346-350: the funcargs restricted to the
direct argument names. -/
def itemKwargs {α : Type} (it : PyFuncItem α) : List (String × α) :=
  it.funcargs.filter (fun p => p.1 ∈ it.argnames)

/-- The fixture definitions pytest resolves for a fixture name
(`pyfuncitem._fixtureinfo.name2fixturedefs[name]`). -/
def itemFixtureDefs {α : Type} (it : PyFuncItem α) (name : String) :
    List (FixtureDefM α) :=
  (slookup it.name2fixturedefs name).getD []

/-- The inner loop of the auto-clock scan (lines 361-364): for each fixture
definition registered under `name`, if it has the `_pytest_clock` attribute,
set `hasclock` and read `clock = kwargs[name]` (a `KeyError` if `name` is
not among the direct arguments).  The accumulator is `some clock` once a
clock was found. -/
def clockScanDefs {α : Type} (kwargs : List (String × α)) (name : String)
    (acc : Option α) : List (FixtureDefM α) → Except TErr (Option α)
  | [] => .ok acc
  | fx :: rest =>
    if fx.pytestClock then
      match slookup kwargs name with
      | some v => clockScanDefs kwargs name (some v) rest
      | none => .error (keyError name)
    else clockScanDefs kwargs name acc rest

/-- The auto-clock detection scan (lines 355-364): iterate over *all*
fixture names of the item, reading the clock value from the direct-argument
`kwargs` whenever a definition is flagged. -/
def clockScan {α : Type} (it : PyFuncItem α) (kwargs : List (String × α))
    (acc : Option α) : List String → Except TErr (Option α)
  | [] => .ok acc
  | name :: rest =>
    match clockScanDefs kwargs name acc (itemFixtureDefs it name) with
    | .ok acc' => clockScan it kwargs acc' rest
    | .error e => .error e

/-- `_async_pytest_pyfunc_call(pyfuncitem)` (lines 343-378).  `runClocked`
stands for awaiting `defer.ensureDeferred(_clock_runner(func, clock))` in the
live reactor environment (`_clock_runner` itself is modelled separately):

* mark `async_test`: run the auto-clock scan; a scan failure is the raised
  `KeyError`; with a clock found, drive the body under `runClocked`;
  otherwise await the body directly;
* mark `inline_callbacks_test` and everything else (including unmarked
  plain-deferred tests): await the body directly. -/
def _async_pytest_pyfunc_call {α : Type}
    (runClocked : α → Option (Except TErr α)) (it : PyFuncItem α) :
    Option (Except TErr α) :=
  let kwargs := itemKwargs it
  if it.mark = some "async_test" then
    match clockScan it kwargs none it.fixturenames with
    | .error e => some (.error e)
    | .ok (some clock) => runClocked clock
    | .ok none => some (outcomeToExcept it.body)
  else if it.mark = some "inline_callbacks_test" then
    some (outcomeToExcept it.body)
  else
    some (outcomeToExcept it.body)

/-- `pytest_pyfunc_call(pyfuncitem)` (lines 320-326) as it delivers the
result: `_run_inline_callbacks(_async_pytest_pyfunc_call, pyfuncitem)`,
whose inner deferred resolves to the dispatched result, surfaced to the
synchronous caller through the blocking adapter. -/
def pytest_pyfunc_call {α : Type} (inst : Instances) (current : Nat)
    (runClocked : α → Option (Except TErr α)) (it : PyFuncItem α) :
    Option (Except TErr α) :=
  _run_inline_callbacks inst current
    ((_async_pytest_pyfunc_call runClocked it).map exceptToOutcome)

/-! ### Clock-stepping algorithm -/

/-- `RuntimeError("twisted reactor idle")` (line 337). -/
def reactorIdleError : TErr := ⟨"RuntimeError", "twisted reactor idle"⟩

/-- The reactor world driven by `_clock_runner`, abstracted over a state
type `σ` evolving as the virtual clock advances:

* `called` — whether the deferred `d` wrapping the test coroutine has
  completed, and with what resolution (`d.called` / awaiting `d`);
* `getDelayedCalls` — due times of the clock's pending delayed calls
  (twisted's `Clock` keeps them sorted by due time);
* `seconds` — the clock's current time;
* `advance` — advance the clock by a duration, firing due calls (which may
  resolve the deferred or schedule further calls). -/
structure ClockWorld (α σ : Type) where
  called : σ → Option (TOutcome α)
  getDelayedCalls : σ → List ℚ
  seconds : σ → ℚ
  advance : σ → ℚ → σ

/-- `_clock_runner(func, clock)` (lines 329-340), with explicit fuel for the
unbounded `while 1` loop (`none` = the loop ran longer than the fuel):
snapshot the pending calls; if the deferred has completed, return its
resolution (`await d` re-raises failures); if no calls are pending, raise
"twisted reactor idle"; otherwise advance the clock by
`calls[0].time - clock.seconds()` and repeat. -/
def _clock_runner {α σ : Type} (w : ClockWorld α σ) :
    Nat → σ → Option (Except TErr α)
  | 0, _ => none
  | fuel + 1, s =>
    let calls := w.getDelayedCalls s
    match w.called s with
    | some out => some (outcomeToExcept out)
    | none =>
      match calls with
      | [] => some (.error reactorIdleError)
      | c :: _ => _clock_runner w fuel (w.advance s (c - w.seconds s))

/-! ### Reactor lifecycle manager -/

/-- `WrongReactorAlreadyInstalledError` (lines 15-16, 436-441). -/
def wrongReactorError (expected found : String) : TErr :=
  ⟨"WrongReactorAlreadyInstalledError",
    "expected " ++ expected ++ " but found " ++ found⟩

/-- The process-wide reactor state seen by the lifecycle manager:
the type of the globally installed `twisted.internet.reactor` (`none` if no
reactor is installed yet), whether it is running, and the `_instances` /
`_config` globals. -/
structure ReactorState where
  installedType : Option String := none
  running : Bool := false
  instReactor : Option String := none
  grTwisted : Bool := false
  externalReactor : Bool := false
deriving DecidableEq, Repr

/-- `init_twisted_greenlet()` (lines 140-149): no-op when no reactor is
recorded or the greenlet already exists; otherwise create the greenlet when
the reactor is not running, or record external-reactor mode when it is. -/
def init_twisted_greenlet (s : ReactorState) : ReactorState :=
  if s.instReactor = none ∨ s.grTwisted then s
  else if !s.running then { s with grTwisted := true }
  else { s with externalReactor := true }

/-- `_install_reactor(reactor_installer, reactor_type)` (lines 429-446),
with reactor types identified by name: a fresh install succeeds; when a
reactor is already installed the installer raises
`ReactorAlreadyInstalledError`, which is swallowed if the installed reactor
is an instance of the expected type (same type here) and otherwise becomes
`WrongReactorAlreadyInstalledError` naming both types.  On success the
global reactor is recorded in `_instances` and the greenlet initialised. -/
def _install_reactor (reactorType : String) (s : ReactorState) :
    Except TErr ReactorState :=
  match s.installedType with
  | none =>
    .ok (init_twisted_greenlet
      { s with installedType := some reactorType, instReactor := some reactorType })
  | some found =>
    if found = reactorType then
      .ok (init_twisted_greenlet { s with instReactor := some found })
    else
      .error (wrongReactorError reactorType found)

/-! ### Derived observations used in the statements -/

/-- Whether any fixture definition registered under `name` carries the
`_pytest_clock` attribute (the condition making the scan read
`kwargs[name]`). -/
def hasClockDef {α : Type} (it : PyFuncItem α) (name : String) : Bool :=
  (itemFixtureDefs it name).any (fun fx => fx.pytestClock)

/-- The first fixture name, in iteration order, whose definitions carry the
clock flag but which is not a key of the direct-argument `kwargs` — the
name whose `kwargs[name]` lookup raises `KeyError` in the scan. -/
def firstClockMissing {α : Type} (it : PyFuncItem α) (kwargs : List (String × α)) :
    List String → Option String
  | [] => none
  | name :: rest =>
    if hasClockDef it name = true ∧ (slookup kwargs name).isNone = true then
      some name
    else firstClockMissing it kwargs rest

/-! ### Concrete instances used by witnesses and counterexamples -/

/-- A live in-process reactor: the twisted greenlet exists (id 1) and is not
dead; tests run from the main greenlet (id 0). -/
def instOk : Instances := ⟨some 1, false, true⟩

/-- An unmarked test whose plain returned deferred resolves to `7`. -/
def itPlain : PyFuncItem Nat := { mark := none, body := .value 7 }

/-- An `inlineCallbacks`-marked test whose deferred resolves to `7`. -/
def itInline : PyFuncItem Nat :=
  { mark := some "inline_callbacks_test", body := .value 7 }

/-- A coroutine test (mark `async_test`) with one ordinary async fixture and
no auto-clock fixture, resolving to `7`. -/
def itCoro : PyFuncItem Nat :=
  { mark := some "async_test", body := .value 7,
    fixturenames := ["fix"],
    name2fixturedefs := [("fix", [{ mark := some "async_fixture" }])],
    funcargs := [("fix", 3)], argnames := ["fix"] }

/-- The plain test raising `ValueError("boom")`. -/
def itPlainErr : PyFuncItem Nat :=
  { mark := none, body := .failure ⟨"ValueError", "boom"⟩ }

/-- The inline-callbacks test raising `ValueError("boom")`. -/
def itInlineErr : PyFuncItem Nat :=
  { mark := some "inline_callbacks_test", body := .failure ⟨"ValueError", "boom"⟩ }

/-- The clockless coroutine test raising `ValueError("boom")`. -/
def itCoroErr : PyFuncItem Nat :=
  { mark := some "async_test", body := .failure ⟨"ValueError", "boom"⟩ }

/-- A coroutine test whose fixture closure contains a clock-flagged fixture
`"c"` that is not among the direct test arguments. -/
def itClockIndirect : PyFuncItem Nat :=
  { mark := some "async_test", body := .value 0,
    fixturenames := ["c"],
    name2fixturedefs := [("c", [{ pytestClock := true }])],
    funcargs := [("c", 5)], argnames := [] }

/-- A fixture function decorated with `pytest_twisted.inlineCallbacks`, so it
carries the mark `inline_callbacks_test`, which the fixture-setup dispatch
does not recognize. -/
def fxInlineMark : FixtureDefM Nat := { mark := some "inline_callbacks_test" }

/-- An `async_fixture`-marked fixture resolving to `42`. -/
def fxAsync42 : FixtureDefM Nat :=
  { mark := some "async_fixture", bodyOutcome := .value 42 }

/-- An `async_fixture`-marked fixture raising `ValueError("boom")`. -/
def fxAsyncErr : FixtureDefM Nat :=
  { mark := some "async_fixture", bodyOutcome := .failure ⟨"ValueError", "boom"⟩ }

/-- An async yield fixture (coroutine id 1) yielding `10` and then stopping
cleanly. -/
def fxGenA : FixtureDefM Nat :=
  { mark := some "async_yield_fixture", firstStep := .value 10,
    tearStep := .stop, genId := 1 }

/-- A second async yield fixture (coroutine id 2) yielding `20` and then
stopping cleanly. -/
def fxGenB : FixtureDefM Nat :=
  { mark := some "async_yield_fixture", firstStep := .value 20,
    tearStep := .stop, genId := 2 }

/-- An async yield fixture whose first anext raises. -/
def fxGenErr : FixtureDefM Nat :=
  { mark := some "async_yield_fixture",
    firstStep := .failure ⟨"ValueError", "boom"⟩, genId := 3 }

/-- A fixture carrying an arbitrary unrecognized mark. -/
def fxBogus : FixtureDefM Nat := { mark := some "bogus" }

/-- C9 scenario state: two unparametrized async yield fixtures (`fxGenA`
then `fxGenB`) set up for the same test; both instantiations carry
`param_index = 0`. -/
def c9AfterSetups : Tracking Nat :=
  (pytest_fixture_setup instOk 0 fxGenB 0
    (pytest_fixture_setup instOk 0 fxGenA 0 {}).1).1

/-- C9 scenario state after both fixtures were finalized by pytest. -/
def c9AfterFinalizers : Tracking Nat :=
  pytest_fixture_post_finalizer 0 (pytest_fixture_post_finalizer 0 c9AfterSetups)

/-- A concrete clock-stepping world for the spec scenario: the test
coroutine schedules a single delayed call due at time 5 and resolves to `7`
when it fires; the state is the virtual clock's current time. -/
def demoClockWorld : ClockWorld Nat ℚ where
  called := fun t => if 5 ≤ t then some (.value 7) else none
  getDelayedCalls := fun t => if t < 5 then [5] else []
  seconds := fun t => t
  advance := fun t a => t + a

/-- A clock-stepping world where the coroutine schedules nothing and never
resolves. -/
def idleClockWorld : ClockWorld Nat ℚ where
  called := fun _ => none
  getDelayedCalls := fun _ => []
  seconds := fun t => t
  advance := fun t a => t + a

/-! ## Helper lemmas -/

theorem outcomeToExcept_exceptToOutcome {α : Type} (r : Except TErr α) :
    outcomeToExcept (exceptToOutcome r) = r := by
  cases r <;> rfl

theorem blockon_default_not_twisted {α : Type} (current gr : Nat)
    (out : TOutcome α) (h : current ≠ gr) :
    blockon_default ⟨current, some gr⟩ (some out) = some (outcomeToExcept out) := by
  simp [blockon_default, h]

theorem run_inline_callbacks_resolved {α : Type} (inst : Instances)
    (gr current : Nat) (r : Except TErr α) (hgr : inst.grTwisted = some gr)
    (halive : inst.grDead = false) (hcur : current ≠ gr) :
    _run_inline_callbacks inst current (some (exceptToOutcome r)) = some r := by
  simp [_run_inline_callbacks, hgr, halive, blockon_default, hcur,
    outcomeToExcept_exceptToOutcome]

theorem tear_it_down_of_stop {α : Type} {e : TearEntry α}
    (h : e.tearStep = .stop) : tear_it_down e = .ok () := by
  simp [tear_it_down, h]

theorem tear_it_down_of_not_stop {α : Type} {e : TearEntry α}
    (h : e.tearStep ≠ .stop) :
    tear_it_down e = .error (asyncGenDidNotStopError e.genId) := by
  rcases he : e.tearStep with _ | v | err
  · exact absurd he h
  · simp [tear_it_down, he]
  · simp [tear_it_down, he]

theorem pytest_runtest_teardown_all_stop {α : Type} (q : List (TearEntry α))
    (h : ∀ x ∈ q, x.tearStep = .stop) :
    pytest_runtest_teardown q = (.ok (), q, []) := by
  induction q with
  | nil => rfl
  | cons e rest ih =>
    rw [pytest_runtest_teardown, tear_it_down_of_stop (h e (List.mem_cons_self e rest)),
      ih (fun x hx => h x (List.mem_cons_of_mem e hx))]

theorem pytest_runtest_teardown_offender {α : Type} (q1 q2 : List (TearEntry α))
    (e : TearEntry α) (h1 : ∀ x ∈ q1, x.tearStep = .stop)
    (h2 : e.tearStep ≠ .stop) :
    pytest_runtest_teardown (q1 ++ e :: q2) =
      (.error (asyncGenDidNotStopError e.genId), q1 ++ [e], q2) := by
  induction q1 with
  | nil => simp [pytest_runtest_teardown, tear_it_down_of_not_stop h2]
  | cons a rest ih =>
    rw [List.cons_append, pytest_runtest_teardown,
      tear_it_down_of_stop (h1 a (List.mem_cons_self a rest)),
      ih (fun x hx => h1 x (List.mem_cons_of_mem a hx))]
    simp

/-! ## Claims -/

/-- C7: calling the in-process blocking primitive `blockon_default` from
within the twisted greenlet itself raises the reentrancy `AssertionError`
("blockon cannot be called from the twisted greenlet") immediately — for
every deferred `d`, including one that never resolves (`d = none`) — rather
than hanging (`none`) or waiting on the deferred. -/
theorem C7_blockon_reentrancy_assertion {α : Type} (g : Greenlets)
    (d : Option (TOutcome α)) (h : g.grTwisted = some g.current) :
    blockon_default g d = some (.error blockonAssertionError) := by
  simp [blockon_default, h]

/-- Witness for C7: from the twisted greenlet (id 5), on a deferred that
never resolves, `blockon_default` returns the assertion error at once. -/
theorem C7_blockon_reentrancy_assertion_witness :
    blockon_default ⟨5, some 5⟩ (none : Option (TOutcome Nat)) =
      some (.error blockonAssertionError) :=
  C7_blockon_reentrancy_assertion ⟨5, some 5⟩ none rfl

/-- C6: the async-fixture decorator builders (`async_fixture`,
`async_yield_fixture`, `auto_clock`, all built by `_marked_async_fixture`)
reject every requested scope outside `{"function", "module"}` at
definition time with `AsyncFixtureUnsupportedScopeError` naming the
rejected scope, and accept `"function"`, `"module"`, and the default when
no scope is given (which is `"function"`). -/
theorem C6_async_fixture_scope_check {α : Type} (mark : String)
    (_hm : mark ∈ ["async_fixture", "async_yield_fixture", "auto_clock"])
    (posScope kwScope : Option String) (f : FixtureDefM α) :
    (¬(fixtureRequestedScope posScope kwScope = "function" ∨
        fixtureRequestedScope posScope kwScope = "module") →
      _marked_async_fixture mark posScope kwScope f =
        .error (unsupportedScopeError (fixtureRequestedScope posScope kwScope)) ∧
      (unsupportedScopeError (fixtureRequestedScope posScope kwScope)).msg =
        "Unsupported scope " ++ pyRepr (fixtureRequestedScope posScope kwScope) ++
          " used for async fixture") ∧
    ((fixtureRequestedScope posScope kwScope = "function" ∨
        fixtureRequestedScope posScope kwScope = "module") →
      _marked_async_fixture mark posScope kwScope f =
        .ok { f with mark := some mark }) ∧
    (posScope = none → kwScope = none →
      _marked_async_fixture mark posScope kwScope f =
        .ok { f with mark := some mark }) := by
  refine ⟨fun hbad => ⟨?_, rfl⟩, fun hgood => ?_, fun hp hk => ?_⟩
  · simp [_marked_async_fixture, hbad]
  · simp [_marked_async_fixture, hgood]
  · subst hp; subst hk
    simp [_marked_async_fixture, fixtureRequestedScope]

/-- Witness for C6: scope `"session"` is rejected with the unsupported-scope
error naming it; `"module"` and the no-scope default are accepted. -/
theorem C6_async_fixture_scope_check_witness :
    _marked_async_fixture "async_fixture" none (some "session")
        ({} : FixtureDefM Nat) = .error (unsupportedScopeError "session") ∧
    _marked_async_fixture "async_yield_fixture" (some "module") none
        ({} : FixtureDefM Nat) =
      .ok { ({} : FixtureDefM Nat) with mark := some "async_yield_fixture" } ∧
    _marked_async_fixture "auto_clock" none none ({} : FixtureDefM Nat) =
      .ok { ({} : FixtureDefM Nat) with mark := some "auto_clock" } := by
  refine ⟨?_, ?_, ?_⟩
  · exact ((C6_async_fixture_scope_check "async_fixture" (by decide) none
      (some "session") ({} : FixtureDefM Nat)).1 (by decide)).1
  · exact (C6_async_fixture_scope_check "async_yield_fixture" (by decide)
      (some "module") none ({} : FixtureDefM Nat)).2.1 (by decide)
  · exact (C6_async_fixture_scope_check "auto_clock" (by decide) none none
      ({} : FixtureDefM Nat)).2.2 rfl rfl

/-- C3: at the end of a test's teardown phase the queue is drained in FIFO
order.  If every queued handle signals generator exhaustion
(`StopAsyncIteration`), all entries are awaited in queue order and the queue
ends empty with no error.  If a queued handle instead produces a further
value or raises any other error, the drain reaches it after the entries
before it (in FIFO order) and raises the fatal
`AsyncGeneratorFixtureDidNotStopError` ("async fixture did not stop"). -/
theorem C3_teardown_queue_drain {α : Type} (q q1 q2 : List (TearEntry α))
    (e : TearEntry α) (hq : ∀ x ∈ q, x.tearStep = .stop)
    (h1 : ∀ x ∈ q1, x.tearStep = .stop) (h2 : e.tearStep ≠ .stop) :
    pytest_runtest_teardown q = (.ok (), q, []) ∧
    pytest_runtest_teardown (q1 ++ e :: q2) =
      (.error (asyncGenDidNotStopError e.genId), q1 ++ [e], q2) :=
  ⟨pytest_runtest_teardown_all_stop q hq,
    pytest_runtest_teardown_offender q1 q2 e h1 h2⟩

/-- Witness for C3: a clean queue of two exhausted generators drains fully
in order; a queue whose second generator yields again fails with the fatal
error after the first entry was processed. -/
theorem C3_teardown_queue_drain_witness :
    pytest_runtest_teardown [(⟨1, .stop⟩ : TearEntry Nat), ⟨2, .stop⟩] =
      (.ok (), [⟨1, .stop⟩, ⟨2, .stop⟩], []) ∧
    pytest_runtest_teardown
        ([⟨3, .stop⟩] ++ (⟨4, .yielded 9⟩ : TearEntry Nat) :: [⟨5, .stop⟩]) =
      (.error (asyncGenDidNotStopError 4), [⟨3, .stop⟩] ++ [⟨4, .yielded 9⟩],
        [⟨5, .stop⟩]) :=
  C3_teardown_queue_drain [⟨1, .stop⟩, ⟨2, .stop⟩] [⟨3, .stop⟩] [⟨5, .stop⟩]
    ⟨4, .yielded 9⟩ (by decide) (by decide) (by decide)

theorem init_twisted_greenlet_installedType (s : ReactorState) :
    (init_twisted_greenlet s).installedType = s.installedType := by
  unfold init_twisted_greenlet
  split_ifs <;> rfl

theorem init_twisted_greenlet_instReactor (s : ReactorState) :
    (init_twisted_greenlet s).instReactor = s.instReactor := by
  unfold init_twisted_greenlet
  split_ifs <;> rfl

theorem init_twisted_greenlet_idem (s : ReactorState) :
    init_twisted_greenlet (init_twisted_greenlet s) = init_twisted_greenlet s := by
  rcases s with ⟨it, ru, ir, gt, ex⟩
  cases gt <;> cases ru <;> cases ir <;> simp [init_twisted_greenlet]

theorem install_ok_state (ty : String) (s s1 : ReactorState)
    (h : _install_reactor ty s = .ok s1) :
    s1.installedType = some ty ∧ s1.instReactor = some ty ∧
      init_twisted_greenlet s1 = s1 := by
  unfold _install_reactor at h
  split at h
  · injection h with h
    subst h
    refine ⟨?_, ?_, init_twisted_greenlet_idem _⟩
    · rw [init_twisted_greenlet_installedType]
    · rw [init_twisted_greenlet_instReactor]
  · next found hs =>
    split at h
    · next hf =>
      subst hf
      injection h with h
      subst h
      refine ⟨?_, ?_, init_twisted_greenlet_idem _⟩
      · rw [init_twisted_greenlet_installedType]; exact hs
      · rw [init_twisted_greenlet_instReactor]
    · cases h

/-- C5: installing an event-loop backend when a compatible (same-type)
reactor is already installed succeeds silently — a second
`_install_reactor` call with the type just installed is a no-op returning
the unchanged state — while installing a different type fails with
`WrongReactorAlreadyInstalledError` whose message names both the expected
and the found reactor type. -/
theorem C5_install_reactor_idempotent_or_mismatch (ty other : String)
    (s s1 : ReactorState) (hok : _install_reactor ty s = .ok s1) :
    _install_reactor ty s1 = .ok s1 ∧
    (other ≠ ty →
      _install_reactor other s1 = .error (wrongReactorError other ty) ∧
      (wrongReactorError other ty).msg =
        "expected " ++ other ++ " but found " ++ ty) := by
  obtain ⟨hIT, hIR, hInit⟩ := install_ok_state ty s s1 hok
  rcases s1 with ⟨a, b, c, d, e⟩
  simp only at hIT hIR
  subst hIT
  subst hIR
  constructor
  · simpa [_install_reactor] using hInit
  · intro hne
    have hne' : ¬(ty = other) := fun hh => hne hh.symm
    exact ⟨by simp [_install_reactor, hne'], rfl⟩

/-- Witness for C5: installing `"default"` twice from a fresh state is a
no-op the second time; installing `"qt5reactor"` afterwards fails naming
both types. -/
theorem C5_install_reactor_idempotent_or_mismatch_witness :
    _install_reactor "default"
        (⟨some "default", false, some "default", true, false⟩ : ReactorState) =
      .ok ⟨some "default", false, some "default", true, false⟩ ∧
    _install_reactor "qt5reactor"
        (⟨some "default", false, some "default", true, false⟩ : ReactorState) =
      .error (wrongReactorError "qt5reactor" "default") ∧
    (wrongReactorError "qt5reactor" "default").msg =
      "expected qt5reactor but found default" := by
  have h := C5_install_reactor_idempotent_or_mismatch "default" "qt5reactor"
    ({} : ReactorState) ⟨some "default", false, some "default", true, false⟩
    (by rfl)
  exact ⟨h.1, (h.2 (by decide)).1, (h.2 (by decide)).2⟩

theorem clockScanDefs_no_clock {α : Type} (kwargs : List (String × α))
    (name : String) (acc : Option α) (defs : List (FixtureDefM α))
    (h : ∀ fx ∈ defs, fx.pytestClock = false) :
    clockScanDefs kwargs name acc defs = .ok acc := by
  induction defs with
  | nil => rfl
  | cons fx rest ih =>
    rw [clockScanDefs]
    rw [if_neg (by simp [h fx (List.mem_cons_self fx rest)])]
    exact ih (fun x hx => h x (List.mem_cons_of_mem fx hx))

theorem clockScan_no_clock {α : Type} (it : PyFuncItem α)
    (kwargs : List (String × α)) (acc : Option α) (names : List String)
    (h : ∀ name ∈ names, ∀ fx ∈ itemFixtureDefs it name, fx.pytestClock = false) :
    clockScan it kwargs acc names = .ok acc := by
  induction names with
  | nil => rfl
  | cons name rest ih =>
    rw [clockScan]
    rw [clockScanDefs_no_clock kwargs name acc _
      (h name (List.mem_cons_self name rest))]
    exact ih (fun x hx => h x (List.mem_cons_of_mem name hx))

theorem async_pyfunc_call_plain {α : Type} (runClocked : α → Option (Except TErr α))
    (it : PyFuncItem α) (hmark : it.mark = none) :
    _async_pytest_pyfunc_call runClocked it = some (outcomeToExcept it.body) := by
  unfold _async_pytest_pyfunc_call
  rw [hmark]
  rw [if_neg (by simp), if_neg (by simp)]

theorem async_pyfunc_call_inline {α : Type} (runClocked : α → Option (Except TErr α))
    (it : PyFuncItem α) (hmark : it.mark = some "inline_callbacks_test") :
    _async_pytest_pyfunc_call runClocked it = some (outcomeToExcept it.body) := by
  unfold _async_pytest_pyfunc_call
  rw [hmark]
  rw [if_neg (by simp), if_pos rfl]

theorem async_pyfunc_call_coro_no_clock {α : Type}
    (runClocked : α → Option (Except TErr α)) (it : PyFuncItem α)
    (hmark : it.mark = some "async_test")
    (hnc : ∀ name ∈ it.fixturenames, ∀ fx ∈ itemFixtureDefs it name,
      fx.pytestClock = false) :
    _async_pytest_pyfunc_call runClocked it = some (outcomeToExcept it.body) := by
  unfold _async_pytest_pyfunc_call
  rw [hmark]
  rw [if_pos rfl]
  rw [clockScan_no_clock it (itemKwargs it) none it.fixturenames hnc]

/-- C1: for every test whose asynchronous body resolves to a value `v`,
each of the three dispatch paths of `_async_pytest_pyfunc_call` — unmarked
plain-deferred, `inline_callbacks_test`, and `async_test` without an
auto-clock fixture — delivers exactly `v` through the blocking hand-off
(`_run_inline_callbacks` / `blockon_default`) to the synchronous caller. -/
theorem C1_dispatch_delivers_value {α : Type} (inst : Instances)
    (gr current : Nat) (runClocked : α → Option (Except TErr α))
    (it : PyFuncItem α) (v : α) (hgr : inst.grTwisted = some gr)
    (halive : inst.grDead = false) (hcur : current ≠ gr)
    (hbody : it.body = .value v) :
    (it.mark = none →
      pytest_pyfunc_call inst current runClocked it = some (.ok v)) ∧
    (it.mark = some "inline_callbacks_test" →
      pytest_pyfunc_call inst current runClocked it = some (.ok v)) ∧
    (it.mark = some "async_test" →
      (∀ name ∈ it.fixturenames, ∀ fx ∈ itemFixtureDefs it name,
        fx.pytestClock = false) →
      pytest_pyfunc_call inst current runClocked it = some (.ok v)) := by
  have deliver :
      _async_pytest_pyfunc_call runClocked it = some (outcomeToExcept it.body) →
      pytest_pyfunc_call inst current runClocked it = some (.ok v) := by
    intro hasync
    unfold pytest_pyfunc_call
    rw [hasync, hbody]
    exact run_inline_callbacks_resolved inst gr current (.ok v) hgr halive hcur
  exact ⟨fun hmark => deliver (async_pyfunc_call_plain runClocked it hmark),
    fun hmark => deliver (async_pyfunc_call_inline runClocked it hmark),
    fun hmark hnc =>
      deliver (async_pyfunc_call_coro_no_clock runClocked it hmark hnc)⟩

/-- Witness for C1: from the main greenlet with a live twisted greenlet,
an unmarked test, an inline-callbacks test, and a clockless coroutine test
each resolving to `7` deliver exactly `7`. -/
theorem C1_dispatch_delivers_value_witness :
    pytest_pyfunc_call instOk 0 (fun _ => none) itPlain = some (.ok 7) ∧
    pytest_pyfunc_call instOk 0 (fun _ => none) itInline = some (.ok 7) ∧
    pytest_pyfunc_call instOk 0 (fun _ => none) itCoro = some (.ok 7) :=
  ⟨(C1_dispatch_delivers_value instOk 1 0 (fun _ => none) itPlain 7 rfl rfl
      (by decide) rfl).1 rfl,
    (C1_dispatch_delivers_value instOk 1 0 (fun _ => none) itInline 7 rfl rfl
      (by decide) rfl).2.1 rfl,
    (C1_dispatch_delivers_value instOk 1 0 (fun _ => none) itCoro 7 rfl rfl
      (by decide) rfl).2.2 rfl (by decide)⟩

theorem fixture_setup_body_error {α : Type} (inst : Instances)
    (gr current : Nat) (fx : FixtureDefM α) (paramIndex : Nat)
    (tr : Tracking α) (e : TErr) (hgr : inst.grTwisted = some gr)
    (halive : inst.grDead = false) (hcur : current ≠ gr)
    (herr : (_async_pytest_fixture_setup fx paramIndex tr).2 = .error e)
    (hmk : fx.mark ≠ none) :
    (pytest_fixture_setup inst current fx paramIndex tr).2 =
      some (.error e) := by
  unfold pytest_fixture_setup
  rw [if_neg (by simpa using hmk), hgr]
  simp only [halive, Bool.false_eq_true, if_false]
  rcases hsetup : _async_pytest_fixture_setup fx paramIndex tr with ⟨tr', r⟩
  rw [hsetup] at herr
  simp only at herr
  subst herr
  simp [blockon_default, hcur, outcomeToExcept_exceptToOutcome, Except.map]

/-- C2: for every test or fixture whose asynchronous body raises an error
`e`, the failure is captured as a deferred failure, propagated through the
blocking hand-off, and re-raised in the calling context as the very same
`TErr` (same exception type and message): the three test dispatch paths of
`_async_pytest_pyfunc_call` surface `.error e`, and so does
`pytest_fixture_setup` for an `async_fixture` whose coroutine raises and an
`async_yield_fixture` whose first step raises. -/
theorem C2_error_propagation {α : Type} (inst : Instances) (gr current : Nat)
    (runClocked : α → Option (Except TErr α)) (it : PyFuncItem α) (e : TErr)
    (fx : FixtureDefM α) (paramIndex : Nat) (tr : Tracking α)
    (hgr : inst.grTwisted = some gr) (halive : inst.grDead = false)
    (hcur : current ≠ gr) (hbody : it.body = .failure e) :
    (it.mark = none →
      pytest_pyfunc_call inst current runClocked it = some (.error e)) ∧
    (it.mark = some "inline_callbacks_test" →
      pytest_pyfunc_call inst current runClocked it = some (.error e)) ∧
    (it.mark = some "async_test" →
      (∀ name ∈ it.fixturenames, ∀ fx' ∈ itemFixtureDefs it name,
        fx'.pytestClock = false) →
      pytest_pyfunc_call inst current runClocked it = some (.error e)) ∧
    (fx.mark = some "async_fixture" → fx.bodyOutcome = .failure e →
      (pytest_fixture_setup inst current fx paramIndex tr).2 =
        some (.error e)) ∧
    (fx.mark = some "async_yield_fixture" → fx.firstStep = .failure e →
      (pytest_fixture_setup inst current fx paramIndex tr).2 =
        some (.error e)) := by
  have deliver :
      _async_pytest_pyfunc_call runClocked it = some (outcomeToExcept it.body) →
      pytest_pyfunc_call inst current runClocked it = some (.error e) := by
    intro hasync
    unfold pytest_pyfunc_call
    rw [hasync, hbody]
    exact run_inline_callbacks_resolved inst gr current (.error e) hgr halive hcur
  refine ⟨fun hmark => deliver (async_pyfunc_call_plain runClocked it hmark),
    fun hmark => deliver (async_pyfunc_call_inline runClocked it hmark),
    fun hmark hnc =>
      deliver (async_pyfunc_call_coro_no_clock runClocked it hmark hnc),
    fun hmark hfail => ?_, fun hmark hfail => ?_⟩
  · refine fixture_setup_body_error inst gr current fx paramIndex tr e hgr
      halive hcur ?_ (by rw [hmark]; exact Option.some_ne_none _)
    unfold _async_pytest_fixture_setup
    rw [if_pos hmark, hfail]
  · refine fixture_setup_body_error inst gr current fx paramIndex tr e hgr
      halive hcur ?_ (by rw [hmark]; exact Option.some_ne_none _)
    unfold _async_pytest_fixture_setup
    rw [if_neg (by rw [hmark]; decide), if_pos hmark, hfail]

/-- Witness for C2: the three test paths and the two failing fixtures all
surface `ValueError("boom")` unchanged. -/
theorem C2_error_propagation_witness :
    pytest_pyfunc_call instOk 0 (fun _ => none) itPlainErr =
      some (.error ⟨"ValueError", "boom"⟩) ∧
    pytest_pyfunc_call instOk 0 (fun _ => none) itInlineErr =
      some (.error ⟨"ValueError", "boom"⟩) ∧
    pytest_pyfunc_call instOk 0 (fun _ => none) itCoroErr =
      some (.error ⟨"ValueError", "boom"⟩) ∧
    (pytest_fixture_setup instOk 0 fxAsyncErr 0 ({} : Tracking Nat)).2 =
      some (.error ⟨"ValueError", "boom"⟩) ∧
    (pytest_fixture_setup instOk 0 fxGenErr 0 ({} : Tracking Nat)).2 =
      some (.error ⟨"ValueError", "boom"⟩) := by
  have h1 := C2_error_propagation instOk 1 0 (fun _ => none) itPlainErr
    ⟨"ValueError", "boom"⟩ fxAsyncErr 0 ({} : Tracking Nat) rfl rfl
    (by decide) rfl
  have h2 := C2_error_propagation instOk 1 0 (fun _ => none) itInlineErr
    ⟨"ValueError", "boom"⟩ fxGenErr 0 ({} : Tracking Nat) rfl rfl
    (by decide) rfl
  have h3 := C2_error_propagation instOk 1 0 (fun _ => none) itCoroErr
    ⟨"ValueError", "boom"⟩ fxAsyncErr 0 ({} : Tracking Nat) rfl rfl
    (by decide) rfl
  exact ⟨h1.1 rfl, h2.2.1 rfl, h3.2.2.1 rfl (by decide),
    h1.2.2.2.1 rfl rfl, h2.2.2.2.2 rfl rfl⟩

/-- C4: one iteration of the clock-stepping loop of `_clock_runner`, in any
reactor world whose clock advances additively and keeps its pending calls
sorted by due time: if the wrapped handle has completed, the loop returns
its resolution; otherwise, if the virtual clock has no pending delayed
calls, it raises the fatal `RuntimeError("twisted reactor idle")`;
otherwise it advances the virtual clock exactly to the due time of the
earliest pending call (the head, which is minimal among all pending calls)
and repeats. -/
theorem C4_clock_runner_loop {α σ : Type} (w : ClockWorld α σ) (fuel : Nat)
    (s : σ) (hAdv : ∀ a, w.seconds (w.advance s a) = w.seconds s + a)
    (hSorted : (w.getDelayedCalls s).Sorted (· ≤ ·)) :
    (∀ out, w.called s = some out →
      _clock_runner w (fuel + 1) s = some (outcomeToExcept out)) ∧
    (w.called s = none → w.getDelayedCalls s = [] →
      _clock_runner w (fuel + 1) s = some (.error reactorIdleError)) ∧
    (∀ c rest, w.called s = none → w.getDelayedCalls s = c :: rest →
      _clock_runner w (fuel + 1) s =
        _clock_runner w fuel (w.advance s (c - w.seconds s)) ∧
      w.seconds (w.advance s (c - w.seconds s)) = c ∧
      ∀ x ∈ w.getDelayedCalls s, c ≤ x) := by
  refine ⟨fun out hout => ?_, fun hnone hnil => ?_,
    fun c rest hnone hcons => ⟨?_, ?_, fun x hx => ?_⟩⟩
  · rw [_clock_runner]
    simp [hout]
  · rw [_clock_runner]
    simp [hnone, hnil]
  · rw [_clock_runner]
    simp [hnone, hcons]
  · rw [hAdv]
    ring
  · rw [hcons] at hSorted hx
    rcases List.mem_cons.mp hx with hxe | hxr
    · exact le_of_eq hxe.symm
    · exact (List.sorted_cons.mp hSorted).1 x hxr

/-- Witness for C4, on the spec scenario worlds: from time 0 with one call
due at 5, the loop advances exactly to 5 (the minimal due time) and
repeats; at time 5 the handle has completed and the value 7 is returned, so
the whole run yields 7 after a single advance; in the world with no
pending calls and a never-resolving handle, the loop raises
"twisted reactor idle". -/
theorem C4_clock_runner_loop_witness :
    (_clock_runner demoClockWorld 2 0 =
      _clock_runner demoClockWorld 1
        (demoClockWorld.advance 0 (5 - demoClockWorld.seconds 0))) ∧
    demoClockWorld.seconds
        (demoClockWorld.advance 0 (5 - demoClockWorld.seconds 0)) = 5 ∧
    (∀ x ∈ demoClockWorld.getDelayedCalls 0, 5 ≤ x) ∧
    _clock_runner demoClockWorld 1 5 = some (.ok 7) ∧
    _clock_runner demoClockWorld 2 0 = some (.ok 7) ∧
    _clock_runner idleClockWorld 1 0 = some (.error reactorIdleError) := by
  have h0 := C4_clock_runner_loop demoClockWorld 1 0 (fun a => rfl)
    (by norm_num [demoClockWorld])
  have h5 := C4_clock_runner_loop demoClockWorld 0 5 (fun a => rfl)
    (by norm_num [demoClockWorld])
  have hidle := C4_clock_runner_loop idleClockWorld 0 0 (fun a => rfl)
    (by norm_num [idleClockWorld])
  obtain ⟨hstep, htime, hmin⟩ := h0.2.2 5 []
    (by norm_num [demoClockWorld]) (by norm_num [demoClockWorld])
  have hret : _clock_runner demoClockWorld 1 5 = some (.ok 7) :=
    h5.1 (.value 7) (by norm_num [demoClockWorld])
  refine ⟨hstep, htime, hmin, hret, ?_, hidle.2.1 rfl rfl⟩
  rw [hstep]
  have : demoClockWorld.advance 0 (5 - demoClockWorld.seconds 0) = 5 := by
    norm_num [demoClockWorld]
  rw [this, hret]

/-- C8 counterexample: a fixture function decorated with
`pytest_twisted.inlineCallbacks` carries the mark `inline_callbacks_test`,
which the fixture-setup dispatch does not recognize, so it is a fixture
"carrying no recognized mark"; the claim says the setup hook then declines
(returns the none/unhandled signal), but the hook does not decline: it
raises `UnrecognizedCoroutineMarkError`. -/
theorem C8_unrecognized_mark_not_declined :
    (pytest_fixture_setup instOk 0 fxInlineMark 0 ({} : Tracking Nat)).2 =
      some (.error (unrecognizedMarkError (some "inline_callbacks_test"))) ∧
    (pytest_fixture_setup instOk 0 fxInlineMark 0 ({} : Tracking Nat)).2 ≠
      some (.ok none) := by
  have hval : (pytest_fixture_setup instOk 0 fxInlineMark 0
      ({} : Tracking Nat)).2 =
      some (.error (unrecognizedMarkError (some "inline_callbacks_test"))) := rfl
  refine ⟨hval, ?_⟩
  rw [hval]
  simp

/-- C8 (amended): the setup hook declines (returns the none/unhandled
signal) exactly when the fixture function carries no mark at all; for every
fixture carrying one of the recognized marks whose body resolves, the
resolved value is stored as the fixture's cached result
`(value, param_index, None)` and the hook reports handled with a truthy
value; a fixture carrying an unrecognized (non-none) mark neither declines
nor is cached — `UnrecognizedCoroutineMarkError` is raised. -/
theorem C8_fixture_setup_dispatch {α : Type} (inst : Instances)
    (gr current : Nat) (fx : FixtureDefM α) (paramIndex : Nat)
    (tr : Tracking α) (v : α) (m : String) (hgr : inst.grTwisted = some gr)
    (halive : inst.grDead = false) (hcur : current ≠ gr) :
    (fx.mark = none →
      pytest_fixture_setup inst current fx paramIndex tr =
        (tr, some (.ok none))) ∧
    (fx.mark = some "async_fixture" → fx.bodyOutcome = .value v →
      pytest_fixture_setup inst current fx paramIndex tr =
        (tr, some (.ok (some (v,
          { fx with cached_result := some (v, paramIndex, none) }))))) ∧
    (fx.mark = some "async_yield_fixture" → fx.firstStep = .value v →
      pytest_fixture_setup inst current fx paramIndex tr =
        (Tracking.mk
          (dictSet tr.async_yield_fixture_cache paramIndex
            (TearEntry.mk fx.genId fx.tearStep))
          tr.to_be_torn_down,
          some (.ok (some (v,
            { fx with cached_result := some (v, paramIndex, none) }))))) ∧
    (fx.mark = some "auto_clock" → fx.bodyOutcome = .value v →
      pytest_fixture_setup inst current fx paramIndex tr =
        (tr, some (.ok (some (v,
          { fx with pytestClock := true, cached_result := some (v, paramIndex, none) }))))) ∧
    (fx.mark = some m →
      m ∉ ["async_fixture", "async_yield_fixture", "auto_clock"] →
      (pytest_fixture_setup inst current fx paramIndex tr).2 =
        some (.error (unrecognizedMarkError (some m)))) := by
  refine ⟨fun hmark => ?_, fun hmark hval => ?_, fun hmark hval => ?_,
    fun hmark hval => ?_, fun hmark hmem => ?_⟩
  · simp [pytest_fixture_setup, hmark]
  · simp [pytest_fixture_setup, hmark, hgr, halive,
      _async_pytest_fixture_setup, hval, blockon_default, hcur,
      exceptToOutcome, outcomeToExcept, Except.map]
  · simp [pytest_fixture_setup, hmark, hgr, halive,
      _async_pytest_fixture_setup, hval, blockon_default, hcur,
      exceptToOutcome, outcomeToExcept, Except.map]
  · simp [pytest_fixture_setup, hmark, hgr, halive,
      _async_pytest_fixture_setup, hval, blockon_default, hcur,
      exceptToOutcome, outcomeToExcept, Except.map]
  · simp only [List.mem_cons, List.mem_singleton, not_or] at hmem
    obtain ⟨h1, h2, h3⟩ := hmem
    simp [pytest_fixture_setup, hmark, hgr, halive,
      _async_pytest_fixture_setup, h1, h2, h3, blockon_default, hcur,
      exceptToOutcome, outcomeToExcept, Except.map]

/-- Witness for C8 (amended): an unmarked fixture declines; an
`async_fixture` resolving to `42` is cached as `(42, 0, None)` and reported
handled; a fixture marked `"bogus"` raises the unrecognized-mark error. -/
theorem C8_fixture_setup_dispatch_witness :
    pytest_fixture_setup instOk 0 ({} : FixtureDefM Nat) 0 ({} : Tracking Nat) =
      (({} : Tracking Nat), some (.ok none)) ∧
    pytest_fixture_setup instOk 0 fxAsync42 0 ({} : Tracking Nat) =
      (({} : Tracking Nat), some (.ok (some (42,
        { fxAsync42 with cached_result := some (42, 0, none) })))) ∧
    (pytest_fixture_setup instOk 0 fxBogus 0 ({} : Tracking Nat)).2 =
      some (.error (unrecognizedMarkError (some "bogus"))) :=
  ⟨(C8_fixture_setup_dispatch instOk 1 0 ({} : FixtureDefM Nat) 0
      ({} : Tracking Nat) 0 "x" rfl rfl (by decide)).1 rfl,
    (C8_fixture_setup_dispatch instOk 1 0 fxAsync42 0 ({} : Tracking Nat) 42
      "x" rfl rfl (by decide)).2.1 rfl rfl,
    (C8_fixture_setup_dispatch instOk 1 0 fxBogus 0 ({} : Tracking Nat) 0
      "bogus" rfl rfl (by decide)).2.2.2.2 rfl (by decide)⟩

/-- C9: the pending-generator map is keyed *only* by the instantiation's
`param_index`, so two async-generator fixtures instantiated within the same
test, both unparametrized (`param_index = 0`), collide: the second setup
overwrites the first entry (coroutine id 1) in the cache; after both pytest
finalizations only the second coroutine (id 2) reaches the teardown queue,
and the drain verifies termination of generator 2 only — generator 1 was
inserted during setup but is never removed-and-verified, violating the
claimed invariant.  (`code_bug`: the spec states the invariant as mandatory,
and the source's own `HACK!`/`TODO` comments mark this storage as
provisional.) -/
theorem C9_pending_teardown_collision :
    ((pytest_fixture_setup instOk 0 fxGenA 0
        ({} : Tracking Nat)).1).async_yield_fixture_cache =
      [(0, ⟨1, .stop⟩)] ∧
    c9AfterSetups.async_yield_fixture_cache = [(0, ⟨2, .stop⟩)] ∧
    c9AfterFinalizers.async_yield_fixture_cache = [] ∧
    c9AfterFinalizers.to_be_torn_down = [⟨2, .stop⟩] ∧
    (pytest_runtest_teardown c9AfterFinalizers.to_be_torn_down).2.1.map
        TearEntry.genId = [2] ∧
    ¬(1 ∈ (pytest_runtest_teardown c9AfterFinalizers.to_be_torn_down).2.1.map
        TearEntry.genId) := by
  decide

theorem slookup_filter_not_mem {α : Type} (l : List (String × α))
    (args : List String) (n : String) (h : n ∉ args) :
    slookup (l.filter (fun p => p.1 ∈ args)) n = none := by
  induction l with
  | nil => rfl
  | cons p rest ih =>
    rw [List.filter_cons]
    by_cases hp : p.1 ∈ args
    · rw [if_pos (by simpa using hp)]
      have hpn : p.1 ≠ n := fun he => h (he ▸ hp)
      unfold slookup
      rw [List.find?_cons_of_neg _ (by simpa using hpn)]
      exact ih
    · rw [if_neg (by simpa using hp)]
      exact ih

theorem clockScanDefs_err {α : Type} (kwargs : List (String × α))
    (name : String) (acc : Option α) (defs : List (FixtureDefM α))
    (hflag : defs.any (fun fx => fx.pytestClock) = true)
    (hmiss : slookup kwargs name = none) :
    clockScanDefs kwargs name acc defs = .error (keyError name) := by
  induction defs generalizing acc with
  | nil => simp at hflag
  | cons fx rest ih =>
    rw [clockScanDefs]
    by_cases hc : fx.pytestClock
    · rw [if_pos hc, hmiss]
    · rw [if_neg hc]
      refine ih acc ?_
      simpa [hc] using hflag

theorem clockScanDefs_ok {α : Type} (kwargs : List (String × α))
    (name : String) (acc : Option α) (defs : List (FixtureDefM α))
    (h : defs.any (fun fx => fx.pytestClock) = false ∨
      ∃ v, slookup kwargs name = some v) :
    ∃ acc', clockScanDefs kwargs name acc defs = .ok acc' := by
  induction defs generalizing acc with
  | nil => exact ⟨acc, rfl⟩
  | cons fx rest ih =>
    rw [clockScanDefs]
    by_cases hc : fx.pytestClock
    · rcases h with hflag | ⟨v, hv⟩
      · rw [List.any_cons, hc] at hflag
        simp at hflag
      · rw [if_pos hc, hv]
        exact ih (some v) (Or.inr ⟨v, hv⟩)
    · rw [if_neg hc]
      refine ih acc ?_
      rcases h with hflag | hv
      · left
        simpa [hc] using hflag
      · exact Or.inr hv

theorem firstClockMissing_spec {α : Type} (it : PyFuncItem α)
    (kwargs : List (String × α)) (names : List String) (n : String)
    (h : firstClockMissing it kwargs names = some n) :
    hasClockDef it n = true ∧ slookup kwargs n = none := by
  induction names with
  | nil => simp [firstClockMissing] at h
  | cons name rest ih =>
    rw [firstClockMissing] at h
    by_cases hcond : hasClockDef it name = true ∧
        (slookup kwargs name).isNone = true
    · rw [if_pos hcond] at h
      injection h with h
      subst h
      exact ⟨hcond.1, Option.isNone_iff_eq_none.mp hcond.2⟩
    · rw [if_neg hcond] at h
      exact ih h

theorem firstClockMissing_of_mem {α : Type} (it : PyFuncItem α)
    (kwargs : List (String × α)) (names : List String) (n : String)
    (hmem : n ∈ names) (hflag : hasClockDef it n = true)
    (hmiss : slookup kwargs n = none) :
    ∃ m, firstClockMissing it kwargs names = some m := by
  induction names with
  | nil => cases hmem
  | cons name rest ih =>
    rw [firstClockMissing]
    by_cases hcond : hasClockDef it name = true ∧
        (slookup kwargs name).isNone = true
    · exact ⟨name, if_pos hcond⟩
    · rw [if_neg hcond]
      rcases List.mem_cons.mp hmem with heq | hmem'
      · subst heq
        exact absurd ⟨hflag, Option.isNone_iff_eq_none.mpr hmiss⟩ hcond
      · exact ih hmem'

theorem clockScan_err {α : Type} (it : PyFuncItem α)
    (kwargs : List (String × α)) (acc : Option α) (names : List String)
    (n : String) (h : firstClockMissing it kwargs names = some n) :
    clockScan it kwargs acc names = .error (keyError n) := by
  induction names generalizing acc with
  | nil => simp [firstClockMissing] at h
  | cons name rest ih =>
    rw [clockScan]
    rw [firstClockMissing] at h
    by_cases hcond : hasClockDef it name = true ∧
        (slookup kwargs name).isNone = true
    · rw [if_pos hcond] at h
      injection h with h
      subst h
      rw [clockScanDefs_err kwargs name acc (itemFixtureDefs it name) hcond.1
        (Option.isNone_iff_eq_none.mp hcond.2)]
    · rw [if_neg hcond] at h
      have hok : (itemFixtureDefs it name).any (fun fx => fx.pytestClock) = false ∨
          ∃ v, slookup kwargs name = some v := by
        by_cases hf : hasClockDef it name = true
        · right
          rcases hl : slookup kwargs name with _ | v
          · exact absurd ⟨hf, Option.isNone_iff_eq_none.mpr hl⟩ hcond
          · exact ⟨v, rfl⟩
        · left
          simpa [hasClockDef] using hf
      obtain ⟨acc', hacc⟩ :=
        clockScanDefs_ok kwargs name acc (itemFixtureDefs it name) hok
      rw [hacc]
      exact ih acc' h

/-- C10: in the coroutine-test path, the auto-clock scan iterates over all
of the test's fixture names but reads the clock value only from the
direct-argument `kwargs` (funcargs restricted to `argnames`); hence, when a
clock-flagged fixture name occurs in the fixture closure without being a
direct test argument, its `kwargs` lookup yields nothing, and the dispatch
raises a `KeyError` for a clock-flagged, non-injected name rather than
skipping the fixture or running the test unclocked. -/
theorem C10_clock_scan_key_missing {α : Type}
    (runClocked : α → Option (Except TErr α)) (it : PyFuncItem α)
    (n : String) (hmark : it.mark = some "async_test")
    (hmem : n ∈ it.fixturenames) (hflag : hasClockDef it n = true)
    (hnotarg : n ∉ it.argnames) :
    slookup (itemKwargs it) n = none ∧
    ∃ m, hasClockDef it m = true ∧ slookup (itemKwargs it) m = none ∧
      _async_pytest_pyfunc_call runClocked it = some (.error (keyError m)) := by
  have hmiss : slookup (itemKwargs it) n = none :=
    slookup_filter_not_mem it.funcargs it.argnames n hnotarg
  refine ⟨hmiss, ?_⟩
  obtain ⟨m, hm⟩ := firstClockMissing_of_mem it (itemKwargs it)
    it.fixturenames n hmem hflag hmiss
  obtain ⟨hmf, hmm⟩ := firstClockMissing_spec it (itemKwargs it)
    it.fixturenames m hm
  refine ⟨m, hmf, hmm, ?_⟩
  unfold _async_pytest_pyfunc_call
  rw [hmark]
  rw [if_pos rfl]
  rw [clockScan_err it (itemKwargs it) none it.fixturenames m hm]

/-- Witness for C10: the test `itClockIndirect` has the clock-flagged
fixture `"c"` in its closure but not among its direct arguments; the
dispatch raises `KeyError` instead of running the test. -/
theorem C10_clock_scan_key_missing_witness :
    slookup (itemKwargs itClockIndirect) "c" = none ∧
    ∃ m, hasClockDef itClockIndirect m = true ∧
      slookup (itemKwargs itClockIndirect) m = none ∧
      _async_pytest_pyfunc_call (fun _ => none) itClockIndirect =
        some (.error (keyError m)) :=
  C10_clock_scan_key_missing (fun _ => none) itClockIndirect "c" rfl
    (by decide) (by decide) (by decide)

end PytestTwisted
